import Mathlib

/-!
Shallow embedding of the `mcp-auckland-transport` repository
(`src/gtfs_types.py`, `src/at_service.py`, `src/app.py`).

Modelling conventions:
* JSON values are the inductive `Json`; JSON numbers are carried as exact
  rationals (`Rat`).  The Python code performs no arithmetic on latitude or
  longitude — it only transports the parsed value — so exact rationals embed
  the observable behaviour of the float fields faithfully.
* The pydantic `BaseModel` classes of `gtfs_types.py` become structures plus
  explicit `model_validate` functions; pydantic's default lax coercion for the
  declared field types (`int`, `float`, `str`) is embedded in `validateInt`,
  `validateFloat`, `validateString`.  Exponent notation and non-finite float
  strings are outside the model.
* Python's `str.strip` and `str.lower` are embedded as `pyStrip` and `pyLower`
  on the underlying character list (ASCII case folding, ASCII whitespace).
* The wall clock read by `_get_date_time` / `_get_hour` becomes an explicit
  `Now` argument; the HTTP layer becomes an explicit `Upstream` argument
  (transport failure, or a response carrying a status code and an optional
  parsed JSON body — `none` meaning the body is not valid JSON).
* Each service operation returns a `CallResult`: the list of request URLs it
  issued, in order, together with its outcome (`Except ATError α`, where an
  `ATError` stands for the exception the Python code would raise).
-/

/-- JSON values as produced by `response.json()`.  `int` is a JSON integer
literal (a Python `int`), `num` a JSON number with a fractional part (a Python
`float`), carried as an exact rational. -/
inductive Json where
  | null
  | bool (b : Bool)
  | int (n : Int)
  | num (q : Rat)
  | str (s : String)
  | arr (elems : List Json)
  | obj (fields : List (String × Json))

/-- Look a key up in an association list of JSON object fields (first match,
as in a Python dict built from unique keys). -/
def getField : List (String × Json) → String → Option Json
  | [], _ => none
  | (k, v) :: rest, key => if k = key then some v else getField rest key

/-- Field access on a JSON value: only objects have fields. -/
def Json.lookup : Json → String → Option Json
  | .obj fields, key => getField fields key
  | _, _ => none

/-- Digit-string check used by the lax numeric coercions. -/
def allDigits (cs : List Char) : Bool := cs.all Char.isDigit

/-- Numeric value of a digit string. -/
def digitsVal (cs : List Char) : Nat :=
  cs.foldl (fun acc c => acc * 10 + (c.toNat - 48)) 0

/-- Split an optional leading sign off a character list; `true` means
negative. -/
def splitSign : List Char → Bool × List Char
  | '-' :: rest => (true, rest)
  | '+' :: rest => (false, rest)
  | rest => (false, rest)

/-- Python-style integer literal parse (optional sign, digits), the lax
string-to-int coercion of pydantic. -/
def parseIntString (s : String) : Option Int :=
  let (neg, body) := splitSign s.data
  if !body.isEmpty && allDigits body then
    some (if neg then -(digitsVal body : Int) else (digitsVal body : Int))
  else none

/-- Python-style decimal literal parse (optional sign, digits, optional dot,
digits), the lax string-to-float coercion of pydantic. -/
def parseRatString (s : String) : Option Rat :=
  let (neg, body) := splitSign s.data
  let intPart := body.takeWhile (· ≠ '.')
  let rest := body.dropWhile (· ≠ '.')
  let mk : Rat → Option Rat := fun q => some (if neg then -q else q)
  match rest with
  | [] =>
    if !intPart.isEmpty && allDigits intPart then mk (digitsVal intPart : Rat)
    else none
  | _ :: frac =>
    if (!intPart.isEmpty || !frac.isEmpty) && allDigits intPart && allDigits frac then
      mk ((digitsVal intPart : Rat) + (digitsVal frac : Rat) / ((10 : Rat) ^ frac.length))
    else none

/-- Validation of a field declared `int` in a pydantic model: accepts a JSON
integer, an integral JSON number, or an integer string; booleans and anything
else are rejected. -/
def validateInt : Json → Option Int
  | .int n => some n
  | .num q => if q.den = 1 then some q.num else none
  | .str s => parseIntString s
  | _ => none

/-- Validation of a field declared `float` in a pydantic model: accepts a JSON
number, a JSON integer, or a numeric string; booleans and anything else are
rejected. -/
def validateFloat : Json → Option Rat
  | .num q => some q
  | .int n => some (n : Rat)
  | .str s => parseRatString s
  | _ => none

/-- Validation of a field declared `str` in a pydantic model: accepts exactly
JSON strings. -/
def validateString : Json → Option String
  | .str s => some s
  | _ => none

/-- Fetch-and-validate a required `str` field of a pydantic model. -/
def reqStr (j : Json) (key : String) : Option String :=
  (j.lookup key).bind validateString

/-- Fetch-and-validate a required `int` field of a pydantic model. -/
def reqInt (j : Json) (key : String) : Option Int :=
  (j.lookup key).bind validateInt

/-- Fetch-and-validate a required `float` field of a pydantic model. -/
def reqFloat (j : Json) (key : String) : Option Rat :=
  (j.lookup key).bind validateFloat

/-- Validate each element of a JSON array; the whole list fails as soon as one
element fails (pydantic list-field semantics: no partial record survives). -/
def validateList {α : Type} (f : Json → Option α) : List Json → Option (List α)
  | [] => some []
  | x :: xs => do
    let a ← f x
    let rest ← validateList f xs
    some (a :: rest)

/-- `StopAttributes` of `gtfs_types.py`: all seven fields required. -/
structure StopAttributes where
  location_type : Int
  stop_code : String
  stop_id : String
  stop_lat : Rat
  stop_lon : Rat
  stop_name : String
  wheelchair_boarding : Int
deriving DecidableEq

/-- Pydantic validation of `StopAttributes`: every declared field must be
present and validate against its declared type; extra keys are ignored. -/
def StopAttributes.model_validate (j : Json) : Option StopAttributes := do
  let location_type ← reqInt j "location_type"
  let stop_code ← reqStr j "stop_code"
  let stop_id ← reqStr j "stop_id"
  let stop_lat ← reqFloat j "stop_lat"
  let stop_lon ← reqFloat j "stop_lon"
  let stop_name ← reqStr j "stop_name"
  let wheelchair_boarding ← reqInt j "wheelchair_boarding"
  some { location_type, stop_code, stop_id, stop_lat, stop_lon, stop_name,
         wheelchair_boarding }

/-- Serialisation of `StopAttributes` back to JSON (pydantic `model_dump`),
fields in declaration order. -/
def StopAttributes.model_dump (a : StopAttributes) : Json :=
  .obj [("location_type", .int a.location_type),
        ("stop_code", .str a.stop_code),
        ("stop_id", .str a.stop_id),
        ("stop_lat", .num a.stop_lat),
        ("stop_lon", .num a.stop_lon),
        ("stop_name", .str a.stop_name),
        ("wheelchair_boarding", .int a.wheelchair_boarding)]

/-- `Stop` of `gtfs_types.py`: the resource envelope.  The `type` field is
declared as a plain `str` — no literal check against "stop". -/
structure Stop where
  type : String
  id : String
  attributes : StopAttributes
deriving DecidableEq

/-- Pydantic validation of `Stop`. -/
def Stop.model_validate (j : Json) : Option Stop := do
  let type ← reqStr j "type"
  let id ← reqStr j "id"
  let attributes ← (j.lookup "attributes").bind StopAttributes.model_validate
  some { type, id, attributes }

/-- `StopResponse` of `gtfs_types.py`. -/
structure StopResponse where
  data : List Stop
deriving DecidableEq

/-- Pydantic validation of `StopResponse`: the payload must be an object with
a `data` key holding an array, and every element must validate as a `Stop`. -/
def StopResponse.model_validate (j : Json) : Option StopResponse :=
  match j.lookup "data" with
  | some (.arr elems) => (validateList Stop.model_validate elems).bind
      (fun stops => some { data := stops })
  | _ => none

/-- `StopTripAttributes` of `gtfs_types.py`: all twelve fields required. -/
structure StopTripAttributes where
  arrival_time : String
  departure_time : String
  direction_id : Int
  drop_off_type : Int
  pickup_type : Int
  route_id : String
  service_date : String
  shape_id : String
  stop_headsign : String
  stop_id : String
  stop_sequence : Int
  trip_headsign : String
deriving DecidableEq

/-- Pydantic validation of `StopTripAttributes`. -/
def StopTripAttributes.model_validate (j : Json) : Option StopTripAttributes := do
  let arrival_time ← reqStr j "arrival_time"
  let departure_time ← reqStr j "departure_time"
  let direction_id ← reqInt j "direction_id"
  let drop_off_type ← reqInt j "drop_off_type"
  let pickup_type ← reqInt j "pickup_type"
  let route_id ← reqStr j "route_id"
  let service_date ← reqStr j "service_date"
  let shape_id ← reqStr j "shape_id"
  let stop_headsign ← reqStr j "stop_headsign"
  let stop_id ← reqStr j "stop_id"
  let stop_sequence ← reqInt j "stop_sequence"
  let trip_headsign ← reqStr j "trip_headsign"
  some { arrival_time, departure_time, direction_id, drop_off_type,
         pickup_type, route_id, service_date, shape_id, stop_headsign,
         stop_id, stop_sequence, trip_headsign }

/-- Serialisation of `StopTripAttributes` back to JSON (pydantic
`model_dump`), fields in declaration order. -/
def StopTripAttributes.model_dump (a : StopTripAttributes) : Json :=
  .obj [("arrival_time", .str a.arrival_time),
        ("departure_time", .str a.departure_time),
        ("direction_id", .int a.direction_id),
        ("drop_off_type", .int a.drop_off_type),
        ("pickup_type", .int a.pickup_type),
        ("route_id", .str a.route_id),
        ("service_date", .str a.service_date),
        ("shape_id", .str a.shape_id),
        ("stop_headsign", .str a.stop_headsign),
        ("stop_id", .str a.stop_id),
        ("stop_sequence", .int a.stop_sequence),
        ("trip_headsign", .str a.trip_headsign)]

/-- `StopTrip` of `gtfs_types.py`: envelope; `type` is again a plain `str`. -/
structure StopTrip where
  type : String
  id : String
  attributes : StopTripAttributes
deriving DecidableEq

/-- Pydantic validation of `StopTrip`. -/
def StopTrip.model_validate (j : Json) : Option StopTrip := do
  let type ← reqStr j "type"
  let id ← reqStr j "id"
  let attributes ← (j.lookup "attributes").bind StopTripAttributes.model_validate
  some { type, id, attributes }

/-- `StopTripResponse` of `gtfs_types.py`. -/
structure StopTripResponse where
  data : List StopTrip
deriving DecidableEq

/-- Pydantic validation of `StopTripResponse`. -/
def StopTripResponse.model_validate (j : Json) : Option StopTripResponse :=
  match j.lookup "data" with
  | some (.arr elems) => (validateList StopTrip.model_validate elems).bind
      (fun trips => some { data := trips })
  | _ => none

/-- Drop whitespace from both ends of a character list. -/
def stripChars (cs : List Char) : List Char :=
  ((cs.dropWhile Char.isWhitespace).reverse.dropWhile Char.isWhitespace).reverse

/-- Python `str.strip`: drop whitespace from both ends (ASCII whitespace). -/
def pyStrip (s : String) : String :=
  ⟨stripChars s.data⟩

/-- Python `str.lower` (ASCII case folding). -/
def pyLower (s : String) : String :=
  ⟨s.data.map Char.toLower⟩

/-- Python's `needle in hay` on strings: substring containment, i.e. the
character list of `needle` occurs contiguously inside that of `hay`. -/
def pyInStr (needle hay : String) : Bool :=
  decide (needle.data <:+: hay.data)

/-- Exceptions the service can surface: `requests` transport failures
(RequestError), `response.json()` decode failures (JSONDecodeError, a parse
failure distinct from any HTTP-status handling), and pydantic
ValidationError. -/
inductive ATError where
  | requestError
  | jsonDecodeError
  | validationError
deriving DecidableEq

/-- An upstream HTTP response: its status code and its body as parsed JSON
(`none` when the body is not valid JSON, in which case `response.json()`
raises). -/
structure HttpResponse where
  status : Nat
  body : Option Json

/-- Outcome of the one upstream HTTP exchange of a call: the transport either
fails outright or delivers a response. -/
inductive Upstream where
  | transportFailure
  | response (r : HttpResponse)

/-- Result of one service operation: the request URLs it issued (in order)
and its outcome. -/
structure CallResult (α : Type) where
  requests : List String
  result : Except ATError α

/-- Wall-clock instant read by `datetime.now()`, reduced to the components
the service formats. -/
structure Now where
  year : Nat
  month : Nat
  day : Nat
  hour : Nat
deriving DecidableEq

/-- Zero-pad to two digits, as `strftime` does for month, day and hour. -/
def fmt2 (n : Nat) : String :=
  if n < 10 then "0" ++ toString n else toString n

/-- Zero-pad to four digits, as `strftime` does for the year. -/
def fmt4 (n : Nat) : String :=
  if n < 10 then "000" ++ toString n
  else if n < 100 then "00" ++ toString n
  else if n < 1000 then "0" ++ toString n
  else toString n

/-- `ATService._get_date_time`: the current date as YYYY-MM-DD. -/
def _get_date_time (now : Now) : String :=
  fmt4 now.year ++ "-" ++ fmt2 now.month ++ "-" ++ fmt2 now.day

/-- `ATService._get_hour`: the current hour as HH. -/
def _get_hour (now : Now) : String :=
  fmt2 now.hour

/-- `ATService._make_request`: issue the HTTP exchange and parse the body as
JSON.  The status code of the response is never consulted. -/
def _make_request (u : Upstream) : Except ATError Json :=
  match u with
  | .transportFailure => .error .requestError
  | .response r =>
    match r.body with
    | none => .error .jsonDecodeError
    | some j => .ok j

/-- `ATService._get_url` applied to the `URL_MAP` entry `search_stop`: the
base URL followed by the template with `journey_date` substituted. -/
def url_search_stop (base_url journey_date : String) : String :=
  base_url ++ "/stops?filter[date]=" ++ journey_date

/-- `ATService._get_url` applied to the `URL_MAP` entry
`stop_trips_by_stop_id`: the base URL followed by the template with
`stop_id`, `journey_date` and `journey_hour` substituted. -/
def url_stop_trips_by_stop_id (base_url stop_id journey_date journey_hour : String) : String :=
  base_url ++ "/stops/" ++ stop_id ++ "/stoptrips?filter[date]=" ++ journey_date
           ++ "&filter[start_hour]=" ++ journey_hour

/-- `ATService.search_stop`.  `name = none` embeds Python `None`.  The
upstream exchange and the clock are explicit arguments; the returned
`CallResult` records the URLs requested. -/
def search_stop (base_url : String) (now : Now) (u : Upstream)
    (name : Option String) : CallResult StopResponse :=
  match name with
  | none => { requests := [], result := .ok { data := [] } }
  | some n =>
    if n = "" then { requests := [], result := .ok { data := [] } }
    else
      let name := pyStrip n
      let url := url_search_stop base_url (_get_date_time now)
      match _make_request u with
      | .error e => { requests := [url], result := .error e }
      | .ok stops =>
        match StopResponse.model_validate stops with
        | none => { requests := [url], result := .error .validationError }
        | some stop_response =>
          let found := stop_response.data.filter
            (fun stop => pyInStr (pyLower name) (pyLower stop.attributes.stop_name))
          { requests := [url], result := .ok { data := found } }

/-- `ATService.get_stop_trips_by_stop_id`.  Same conventions as
`search_stop`; the validated upstream response is returned unfiltered. -/
def get_stop_trips_by_stop_id (base_url : String) (now : Now) (u : Upstream)
    (stop_id : Option String) : CallResult StopTripResponse :=
  match stop_id with
  | none => { requests := [], result := .ok { data := [] } }
  | some sid =>
    if sid = "" then { requests := [], result := .ok { data := [] } }
    else
      let stop_id := pyStrip sid
      let url := url_stop_trips_by_stop_id base_url stop_id
                   (_get_date_time now) (_get_hour now)
      match _make_request u with
      | .error e => { requests := [url], result := .error e }
      | .ok stop_trips =>
        match StopTripResponse.model_validate stop_trips with
        | none => { requests := [url], result := .error .validationError }
        | some stop_trip_response =>
          { requests := [url], result := .ok stop_trip_response }

/-- Upstream single-record stop payload from the spec's Britomart scenario:
attributes object. -/
def britomart_attributes_json : Json :=
  .obj [("location_type", .int 0), ("stop_code", .str "100"),
        ("stop_id", .str "100-1"), ("stop_lat", .num (-36.848)),
        ("stop_lon", .num (174.763)), ("stop_name", .str "Britomart Train Station"),
        ("wheelchair_boarding", .int 1)]

/-- Britomart stop envelope. -/
def britomart_stop_json : Json :=
  .obj [("type", .str "stop"), ("id", .str "100-1"),
        ("attributes", britomart_attributes_json)]

/-- Britomart single-record upstream payload. -/
def britomart_payload : Json := .obj [("data", .arr [britomart_stop_json])]

/-- Britomart stop attributes as a validated record. -/
def britomart_attributes : StopAttributes :=
  { location_type := 0, stop_code := "100", stop_id := "100-1",
    stop_lat := -36.848, stop_lon := 174.763,
    stop_name := "Britomart Train Station", wheelchair_boarding := 1 }

/-- Britomart stop as a validated record. -/
def britomart_stop : Stop :=
  { type := "stop", id := "100-1", attributes := britomart_attributes }

/-- Britomart single-record validated response. -/
def britomart_response : StopResponse := { data := [britomart_stop] }

/-- Britomart attributes with the required `stop_lat` field absent. -/
def britomart_attributes_json_no_lat : Json :=
  .obj [("location_type", .int 0), ("stop_code", .str "100"),
        ("stop_id", .str "100-1"),
        ("stop_lon", .num (174.763)), ("stop_name", .str "Britomart Train Station"),
        ("wheelchair_boarding", .int 1)]

/-- Britomart envelope whose attributes lack `stop_lat`. -/
def britomart_stop_json_no_lat : Json :=
  .obj [("type", .str "stop"), ("id", .str "100-1"),
        ("attributes", britomart_attributes_json_no_lat)]

/-- Payload with a record missing the required `stop_lat`. -/
def britomart_payload_no_lat : Json := .obj [("data", .arr [britomart_stop_json_no_lat])]

/-- Britomart attributes with `stop_lat` of the wrong declared type (a
non-numeric string where a `float` is declared). -/
def britomart_attributes_json_bad_lat : Json :=
  .obj [("location_type", .int 0), ("stop_code", .str "100"),
        ("stop_id", .str "100-1"), ("stop_lat", .str "south"),
        ("stop_lon", .num (174.763)), ("stop_name", .str "Britomart Train Station"),
        ("wheelchair_boarding", .int 1)]

/-- Britomart envelope whose `stop_lat` is mistyped. -/
def britomart_stop_json_bad_lat : Json :=
  .obj [("type", .str "stop"), ("id", .str "100-1"),
        ("attributes", britomart_attributes_json_bad_lat)]

/-- Payload with a record whose `stop_lat` is mistyped. -/
def britomart_payload_bad_lat : Json := .obj [("data", .arr [britomart_stop_json_bad_lat])]

/-- Britomart envelope whose `type` tag is "bus" rather than "stop". -/
def bus_stop_json : Json :=
  .obj [("type", .str "bus"), ("id", .str "100-1"),
        ("attributes", britomart_attributes_json)]

/-- Payload carrying the "bus"-typed envelope. -/
def bus_payload : Json := .obj [("data", .arr [bus_stop_json])]

/-- The "bus"-typed record as validated. -/
def bus_stop : Stop :=
  { type := "bus", id := "100-1", attributes := britomart_attributes }

/-- A well-formed stop-trip attributes object. -/
def trip1_attributes_json : Json :=
  .obj [("arrival_time", .str "08:15:00"), ("departure_time", .str "08:15:00"),
        ("direction_id", .int 0), ("drop_off_type", .int 0),
        ("pickup_type", .int 0), ("route_id", .str "NX1"),
        ("service_date", .str "2025-10-12"), ("shape_id", .str "shp-1"),
        ("stop_headsign", .str "City"), ("stop_id", .str "100-1"),
        ("stop_sequence", .int 3), ("trip_headsign", .str "Britomart")]

/-- A well-formed stop-trip envelope. -/
def trip1_json : Json :=
  .obj [("type", .str "stoptrip"), ("id", .str "trip-1"),
        ("attributes", trip1_attributes_json)]

/-- A single-record stop-trip upstream payload. -/
def trip_payload : Json := .obj [("data", .arr [trip1_json])]

/-- The stop-trip attributes as a validated record. -/
def trip1_attributes : StopTripAttributes :=
  { arrival_time := "08:15:00", departure_time := "08:15:00",
    direction_id := 0, drop_off_type := 0, pickup_type := 0,
    route_id := "NX1", service_date := "2025-10-12", shape_id := "shp-1",
    stop_headsign := "City", stop_id := "100-1", stop_sequence := 3,
    trip_headsign := "Britomart" }

/-- The stop-trip envelope as a validated record. -/
def trip1 : StopTrip :=
  { type := "stoptrip", id := "trip-1", attributes := trip1_attributes }

/-- The validated single-record stop-trip response. -/
def trip_response : StopTripResponse := { data := [trip1] }

/-- A fixed wall-clock instant used by concrete scenarios. -/
def now0 : Now := { year := 2025, month := 10, day := 12, hour := 14 }

/-- A fixed base URL used by concrete scenarios. -/
def base0 : String := "https://api.example"

/-- Helper: a list whose prospective head region is all-satisfying is
dropped over an append. -/
theorem dropWhile_append_of_all {α : Type} (p : α → Bool) (l x : List α)
    (h : ∀ c ∈ l, p c = true) : (l ++ x).dropWhile p = x.dropWhile p := by
  have hl : l.dropWhile p = [] := List.dropWhile_eq_nil_iff.mpr h
  simp [List.dropWhile_append, hl]

/-- Helper: stripping both ends ignores all-whitespace padding on either
side. -/
theorem stripChars_pad (l r cs : List Char)
    (hl : ∀ c ∈ l, c.isWhitespace = true) (hr : ∀ c ∈ r, c.isWhitespace = true) :
    stripChars (l ++ cs ++ r) = stripChars cs := by
  unfold stripChars
  rw [List.append_assoc, dropWhile_append_of_all _ l _ hl]
  by_cases hcs : cs.dropWhile Char.isWhitespace = []
  · have hall : ∀ c ∈ cs, c.isWhitespace = true := List.dropWhile_eq_nil_iff.mp hcs
    have hcr : (cs ++ r).dropWhile Char.isWhitespace = [] := by
      refine List.dropWhile_eq_nil_iff.mpr ?_
      intro c hc
      rcases List.mem_append.mp hc with h | h
      · exact hall c h
      · exact hr c h
    rw [hcr, hcs]
  · have hne : ((cs.dropWhile Char.isWhitespace).isEmpty) = false := by
      cases h : cs.dropWhile Char.isWhitespace with
      | nil => exact absurd h hcs
      | cons a as => rfl
    rw [List.dropWhile_append, hne]
    simp only [Bool.false_eq_true, if_false]
    rw [List.reverse_append]
    rw [dropWhile_append_of_all _ r.reverse _ (by
      intro c hc
      exact hr c (List.mem_reverse.mp hc))]

/-- Helper: `pyStrip` ignores all-whitespace padding on either side of the
query string. -/
theorem pyStrip_pad (lead trail n : String)
    (hl : ∀ c ∈ lead.data, c.isWhitespace = true)
    (ht : ∀ c ∈ trail.data, c.isWhitespace = true) :
    pyStrip (lead ++ n ++ trail) = pyStrip n := by
  unfold pyStrip
  rw [String.data_append, String.data_append]
  exact congrArg String.mk (stripChars_pad lead.data trail.data n.data hl ht)

/-- Helper: a string whose padded form is empty is itself empty. -/
theorem ne_empty_append (lead trail n : String) (hn : n ≠ "") :
    lead ++ n ++ trail ≠ "" := by
  intro h
  apply hn
  have hd := congrArg String.data h
  rw [String.data_append, String.data_append] at hd
  have hnil : lead.data ++ n.data ++ trail.data = ([] : List Char) := hd
  have h2 := (List.append_eq_nil.mp hnil).1
  have h3 := (List.append_eq_nil.mp h2).2
  cases n with
  | mk d =>
    cases h3
    rfl

/-- Helper: `search_stop` is insensitive to all-whitespace padding of a
non-empty query. -/
theorem search_stop_pad (base : String) (now : Now) (u : Upstream)
    (lead trail n : String)
    (hl : ∀ c ∈ lead.data, c.isWhitespace = true)
    (ht : ∀ c ∈ trail.data, c.isWhitespace = true)
    (hn : n ≠ "") :
    search_stop base now u (some (lead ++ n ++ trail)) = search_stop base now u (some n) := by
  have hne : lead ++ n ++ trail ≠ "" := ne_empty_append lead trail n hn
  simp only [search_stop]
  rw [if_neg hne, if_neg hn, pyStrip_pad lead trail n hl ht]

/-- Helper: element-wise validation of a list fails whenever one element
fails. -/
theorem validateList_eq_none {α : Type} (f : Json → Option α) :
    ∀ (xs : List Json) (x : Json), x ∈ xs → f x = none → validateList f xs = none := by
  intro xs
  induction xs with
  | nil =>
    intro x hx
    cases hx
  | cons hd tl ih =>
    intro x hx hfx
    cases hx with
    | head =>
      simp [validateList, hfx]
    | tail _ hmem =>
      cases hfhd : f hd with
      | none => simp [validateList, hfhd]
      | some a => simp [validateList, hfhd, ih x hmem hfx]

/-- Helper: the empty query matches every stop name. -/
theorem filter_pyInStr_empty (l : List Stop) :
    l.filter (fun s => pyInStr (pyLower "") (pyLower s.attributes.stop_name)) = l := by
  have h : ∀ s : Stop, pyInStr (pyLower "") (pyLower s.attributes.stop_name) = true :=
    fun s => decide_eq_true List.nil_infix
  rw [List.filter_congr (fun x _ => h x), List.filter_true]

/-- C2: for every empty or absent name (None or the empty string),
`search_stop` returns a StopResponse with an empty data list and issues no
upstream request, whatever the upstream and the clock would have been. -/
theorem search_stop_empty_short_circuit :
    ∀ (base : String) (now : Now) (u : Upstream),
      search_stop base now u none = { requests := [], result := .ok { data := [] } }
      ∧ search_stop base now u (some "") = { requests := [], result := .ok { data := [] } } :=
  fun _ _ _ => ⟨rfl, rfl⟩

/-- C3: for every empty or absent stop id (None or the empty string),
`get_stop_trips_by_stop_id` returns a StopTripResponse with an empty data
list and issues no upstream request, whatever the upstream and the clock
would have been. -/
theorem get_stop_trips_empty_short_circuit :
    ∀ (base : String) (now : Now) (u : Upstream),
      get_stop_trips_by_stop_id base now u none
        = { requests := [], result := .ok { data := [] } }
      ∧ get_stop_trips_by_stop_id base now u (some "")
        = { requests := [], result := .ok { data := [] } } :=
  fun _ _ _ => ⟨rfl, rfl⟩

/-- C7: the query is whitespace-trimmed before matching while stored stop
names are untouched: padding a non-empty query with whitespace on either side
never changes the outcome, and in particular the padded query "  Queen "
behaves exactly as "Queen" against every fixed upstream response. -/
theorem search_stop_trims_query :
    (∀ (base : String) (now : Now) (u : Upstream) (lead trail n : String),
       (∀ c ∈ lead.data, c.isWhitespace = true) →
       (∀ c ∈ trail.data, c.isWhitespace = true) →
       n ≠ "" →
       search_stop base now u (some (lead ++ n ++ trail))
         = search_stop base now u (some n))
    ∧ (∀ (base : String) (now : Now) (u : Upstream),
       search_stop base now u (some "  Queen ")
         = search_stop base now u (some "Queen")) :=
  ⟨search_stop_pad,
   fun base now u =>
     search_stop_pad base now u "  " " " "Queen" (by decide) (by decide) (by decide)⟩

/-- Witness for C7 at a concrete padded query and upstream. -/
theorem search_stop_trims_query_witness :
    search_stop base0 now0 (.response { status := 200, body := some britomart_payload })
        (some (" " ++ "Queen" ++ "  "))
      = search_stop base0 now0 (.response { status := 200, body := some britomart_payload })
        (some "Queen") :=
  search_stop_trims_query.1 base0 now0
    (.response { status := 200, body := some britomart_payload })
    " " "  " "Queen" (by decide) (by decide) (by decide)

/-- C1: for every non-empty name and every validated upstream stop list,
`search_stop` issues exactly the list-stops request and returns exactly the
stops whose `stop_name` contains the trimmed, lower-cased query as a
case-insensitive substring, in the upstream relative order; on the Britomart
single-record payload, the query "britomart" returns exactly that record and
"queen street" returns the empty list. -/
theorem search_stop_substring_spec :
    (∀ (base : String) (now : Now) (st : Nat) (j : Json) (resp : StopResponse)
        (n : String), n ≠ "" → StopResponse.model_validate j = some resp →
      ∃ out : StopResponse,
        search_stop base now (.response { status := st, body := some j }) (some n)
          = { requests := [url_search_stop base (_get_date_time now)],
              result := .ok out }
        ∧ (∀ s : Stop, s ∈ out.data ↔
            s ∈ resp.data ∧ (pyLower (pyStrip n)).data <:+: (pyLower s.attributes.stop_name).data)
        ∧ out.data.Sublist resp.data)
    ∧ search_stop base0 now0 (.response { status := 200, body := some britomart_payload })
        (some "britomart")
        = { requests := [url_search_stop base0 (_get_date_time now0)],
            result := .ok britomart_response }
    ∧ search_stop base0 now0 (.response { status := 200, body := some britomart_payload })
        (some "queen street")
        = { requests := [url_search_stop base0 (_get_date_time now0)],
            result := .ok { data := [] } } := by
  refine ⟨?_, rfl, rfl⟩
  intro base now st j resp n hn hv
  refine ⟨{ data := resp.data.filter (fun s =>
      pyInStr (pyLower (pyStrip n)) (pyLower s.attributes.stop_name)) }, ?_, ?_, ?_⟩
  · simp only [search_stop, if_neg hn, _make_request, hv]
  · intro s
    simp only [List.mem_filter, pyInStr, decide_eq_true_iff]
  · exact List.filter_sublist _

/-- Witness for C1 at a concrete query and upstream response. -/
theorem search_stop_substring_spec_witness :
    ∃ out : StopResponse,
      search_stop base0 now0 (.response { status := 404, body := some britomart_payload })
          (some "Train")
        = { requests := [url_search_stop base0 (_get_date_time now0)], result := .ok out }
      ∧ (∀ s : Stop, s ∈ out.data ↔
          s ∈ britomart_response.data
            ∧ (pyLower (pyStrip "Train")).data <:+: (pyLower s.attributes.stop_name).data)
      ∧ out.data.Sublist britomart_response.data :=
  search_stop_substring_spec.1 base0 now0 404 britomart_payload britomart_response "Train"
    (by decide) (by rfl)

/-- C4: for every non-empty stop id, `get_stop_trips_by_stop_id` issues one
GET whose URL is the base URL followed by the stop-trips template with the
trimmed stop id, the current date (YYYY-MM-DD) and the current hour (HH)
substituted, and returns the schema-validated upstream trip list verbatim,
with no filtering. -/
theorem get_stop_trips_url_and_verbatim :
    ∀ (base : String) (now : Now) (st : Nat) (j : Json) (resp : StopTripResponse)
      (sid : String), sid ≠ "" → StopTripResponse.model_validate j = some resp →
      get_stop_trips_by_stop_id base now (.response { status := st, body := some j }) (some sid)
        = { requests := [url_stop_trips_by_stop_id base (pyStrip sid)
              (_get_date_time now) (_get_hour now)],
            result := .ok resp } := by
  intro base now st j resp sid hsid hv
  simp only [get_stop_trips_by_stop_id, if_neg hsid, _make_request, hv]

/-- Witness for C4 at a concrete stop id, clock and upstream payload. -/
theorem get_stop_trips_url_and_verbatim_witness :
    get_stop_trips_by_stop_id base0 now0 (.response { status := 200, body := some trip_payload })
        (some "100-1")
      = { requests := [url_stop_trips_by_stop_id base0 (pyStrip "100-1")
            (_get_date_time now0) (_get_hour now0)],
          result := .ok trip_response } :=
  get_stop_trips_url_and_verbatim base0 now0 200 trip_payload trip_response "100-1"
    (by decide) (by rfl)

/-- C5: whenever any record in the upstream data list fails stop validation,
validation of the whole response fails (no partially populated record is
returned); in particular a payload whose record lacks `stop_lat`, or carries
a non-numeric `stop_lat`, fails validation as a whole. -/
theorem validation_rejects_malformed_records :
    (∀ (j : Json) (elems : List Json), j.lookup "data" = some (.arr elems) →
       (∃ x ∈ elems, Stop.model_validate x = none) →
       StopResponse.model_validate j = none)
    ∧ StopResponse.model_validate britomart_payload_no_lat = none
    ∧ StopResponse.model_validate britomart_payload_bad_lat = none
    ∧ Stop.model_validate britomart_stop_json_no_lat = none := by
  refine ⟨?_, rfl, rfl, rfl⟩
  intro j elems hdata hbad
  obtain ⟨x, hx, hfx⟩ := hbad
  simp only [StopResponse.model_validate, hdata,
    validateList_eq_none Stop.model_validate elems x hx hfx, Option.bind]

/-- Witness for C5 at the concrete missing-`stop_lat` payload. -/
theorem validation_rejects_malformed_records_witness :
    StopResponse.model_validate britomart_payload_no_lat = none :=
  validation_rejects_malformed_records.1 britomart_payload_no_lat
    [britomart_stop_json_no_lat] (by rfl)
    ⟨britomart_stop_json_no_lat, List.mem_singleton.mpr rfl, by rfl⟩

/-- C6: for both operations, a transport-level failure surfaces as
RequestError, a body that is not valid JSON as a JSON-decode (parse) failure,
and a body failing schema validation as ValidationError, each after exactly
one request (no retry: at most one URL is ever requested); and the outcome
never depends on the HTTP status code — no distinct HTTP-error kind exists. -/
theorem error_kind_spec :
    (∀ (base : String) (now : Now) (n : String), n ≠ "" →
       search_stop base now .transportFailure (some n)
         = { requests := [url_search_stop base (_get_date_time now)],
             result := .error .requestError })
    ∧ (∀ (base : String) (now : Now) (st : Nat) (n : String), n ≠ "" →
       search_stop base now (.response { status := st, body := none }) (some n)
         = { requests := [url_search_stop base (_get_date_time now)],
             result := .error .jsonDecodeError })
    ∧ (∀ (base : String) (now : Now) (st : Nat) (j : Json) (n : String), n ≠ "" →
       StopResponse.model_validate j = none →
       search_stop base now (.response { status := st, body := some j }) (some n)
         = { requests := [url_search_stop base (_get_date_time now)],
             result := .error .validationError })
    ∧ (∀ (base : String) (now : Now) (s1 s2 : Nat) (b : Option Json) (nm : Option String),
       search_stop base now (.response { status := s1, body := b }) nm
         = search_stop base now (.response { status := s2, body := b }) nm)
    ∧ (∀ (base : String) (now : Now) (u : Upstream) (nm : Option String),
       (search_stop base now u nm).requests.length ≤ 1)
    ∧ (∀ (base : String) (now : Now) (sid : String), sid ≠ "" →
       get_stop_trips_by_stop_id base now .transportFailure (some sid)
         = { requests := [url_stop_trips_by_stop_id base (pyStrip sid)
               (_get_date_time now) (_get_hour now)],
             result := .error .requestError })
    ∧ (∀ (base : String) (now : Now) (st : Nat) (sid : String), sid ≠ "" →
       get_stop_trips_by_stop_id base now (.response { status := st, body := none }) (some sid)
         = { requests := [url_stop_trips_by_stop_id base (pyStrip sid)
               (_get_date_time now) (_get_hour now)],
             result := .error .jsonDecodeError })
    ∧ (∀ (base : String) (now : Now) (st : Nat) (j : Json) (sid : String), sid ≠ "" →
       StopTripResponse.model_validate j = none →
       get_stop_trips_by_stop_id base now (.response { status := st, body := some j }) (some sid)
         = { requests := [url_stop_trips_by_stop_id base (pyStrip sid)
               (_get_date_time now) (_get_hour now)],
             result := .error .validationError })
    ∧ (∀ (base : String) (now : Now) (s1 s2 : Nat) (b : Option Json) (sidm : Option String),
       get_stop_trips_by_stop_id base now (.response { status := s1, body := b }) sidm
         = get_stop_trips_by_stop_id base now (.response { status := s2, body := b }) sidm)
    ∧ (∀ (base : String) (now : Now) (u : Upstream) (sidm : Option String),
       (get_stop_trips_by_stop_id base now u sidm).requests.length ≤ 1) := by
  refine ⟨?_, ?_, ?_, ?_, ?_, ?_, ?_, ?_, ?_, ?_⟩
  · intro base now n hn
    simp only [search_stop, if_neg hn, _make_request]
  · intro base now st n hn
    simp only [search_stop, if_neg hn, _make_request]
  · intro base now st j n hn hv
    simp only [search_stop, if_neg hn, _make_request, hv]
  · intro base now s1 s2 b nm
    rfl
  · intro base now u nm
    cases nm with
    | none => simp [search_stop]
    | some n =>
      by_cases h : n = ""
      · simp [search_stop, h]
      · cases u with
        | transportFailure => simp [search_stop, h, _make_request]
        | response r =>
          cases hb : r.body with
          | none => simp [search_stop, h, _make_request, hb]
          | some j =>
            cases hv : StopResponse.model_validate j with
            | none => simp [search_stop, h, _make_request, hb, hv]
            | some resp => simp [search_stop, h, _make_request, hb, hv]
  · intro base now sid hsid
    simp only [get_stop_trips_by_stop_id, if_neg hsid, _make_request]
  · intro base now st sid hsid
    simp only [get_stop_trips_by_stop_id, if_neg hsid, _make_request]
  · intro base now st j sid hsid hv
    simp only [get_stop_trips_by_stop_id, if_neg hsid, _make_request, hv]
  · intro base now s1 s2 b sidm
    rfl
  · intro base now u sidm
    cases sidm with
    | none => simp [get_stop_trips_by_stop_id]
    | some sid =>
      by_cases h : sid = ""
      · simp [get_stop_trips_by_stop_id, h]
      · cases u with
        | transportFailure => simp [get_stop_trips_by_stop_id, h, _make_request]
        | response r =>
          cases hb : r.body with
          | none => simp [get_stop_trips_by_stop_id, h, _make_request, hb]
          | some j =>
            cases hv : StopTripResponse.model_validate j with
            | none => simp [get_stop_trips_by_stop_id, h, _make_request, hb, hv]
            | some resp => simp [get_stop_trips_by_stop_id, h, _make_request, hb, hv]

/-- Witness for C6 at a concrete transport failure. -/
theorem error_kind_spec_witness :
    search_stop base0 now0 .transportFailure (some "Queen")
      = { requests := [url_search_stop base0 (_get_date_time now0)],
          result := .error .requestError } :=
  error_kind_spec.1 base0 now0 "Queen" (by decide)

/-- C9: a name that is non-empty but all whitespace does not short-circuit:
the upstream request is issued, the trimmed query is empty, the empty
substring matches every stop name, and the result is the entire validated
upstream response. -/
theorem search_stop_ws_only_query_matches_all :
    ∀ (base : String) (now : Now) (st : Nat) (j : Json) (resp : StopResponse)
      (n : String), n ≠ "" → pyStrip n = "" →
      StopResponse.model_validate j = some resp →
      search_stop base now (.response { status := st, body := some j }) (some n)
        = { requests := [url_search_stop base (_get_date_time now)],
            result := .ok resp } := by
  intro base now st j resp n hn hstrip hv
  simp only [search_stop, if_neg hn, _make_request, hv, hstrip, filter_pyInStr_empty]

/-- Witness for C9 at the single-space query over the Britomart payload. -/
theorem search_stop_ws_only_query_matches_all_witness :
    search_stop base0 now0 (.response { status := 200, body := some britomart_payload })
        (some " ")
      = { requests := [url_search_stop base0 (_get_date_time now0)],
          result := .ok britomart_response } :=
  search_stop_ws_only_query_matches_all base0 now0 200 britomart_payload britomart_response
    " " (by decide) (by rfl) (by rfl)

/-- C10: the envelope `type` tag is accepted as any string — validation never
compares it with "stop" or "stoptrip"; a record typed "bus" with otherwise
well-formed fields validates and is returned to the caller by
`search_stop`. -/
theorem type_tag_unchecked :
    (∀ (t i : String) (aj : Json) (a : StopAttributes),
       StopAttributes.model_validate aj = some a →
       Stop.model_validate (.obj [("type", .str t), ("id", .str i), ("attributes", aj)])
         = some { type := t, id := i, attributes := a })
    ∧ (∀ (t i : String) (aj : Json) (a : StopTripAttributes),
       StopTripAttributes.model_validate aj = some a →
       StopTrip.model_validate (.obj [("type", .str t), ("id", .str i), ("attributes", aj)])
         = some { type := t, id := i, attributes := a })
    ∧ Stop.model_validate bus_stop_json = some bus_stop
    ∧ search_stop base0 now0 (.response { status := 200, body := some bus_payload })
        (some "britomart")
        = { requests := [url_search_stop base0 (_get_date_time now0)],
            result := .ok { data := [bus_stop] } } := by
  refine ⟨?_, ?_, rfl, rfl⟩
  · intro t i aj a h
    show (StopAttributes.model_validate aj).bind
        (fun b => (some { type := t, id := i, attributes := b } : Option Stop))
        = some { type := t, id := i, attributes := a }
    rw [h]
    rfl
  · intro t i aj a h
    show (StopTripAttributes.model_validate aj).bind
        (fun b => (some { type := t, id := i, attributes := b } : Option StopTrip))
        = some { type := t, id := i, attributes := a }
    rw [h]
    rfl

/-- Witness for C10 at the concrete "bus"-typed envelope. -/
theorem type_tag_unchecked_witness :
    Stop.model_validate (.obj [("type", .str "bus"), ("id", .str "100-1"),
        ("attributes", britomart_attributes_json)])
      = some { type := "bus", id := "100-1", attributes := britomart_attributes } :=
  type_tag_unchecked.1 "bus" "100-1" britomart_attributes_json britomart_attributes (by rfl)

/-- C8: validating a well-formed stop or stop-trip attributes object and
re-serialising yields exactly the input field values — latitude and longitude
are carried as exact rationals through validation and dump, so no precision
is lost — and serialising any validated record re-validates to the same
record. -/
theorem validate_dump_round_trip :
    (∀ a : StopAttributes,
       StopAttributes.model_validate (StopAttributes.model_dump a) = some a)
    ∧ (∀ (lt wb : Int) (sc si sn : String) (la lo : Rat),
       ∃ a : StopAttributes,
         StopAttributes.model_validate (.obj [("location_type", .int lt),
             ("stop_code", .str sc), ("stop_id", .str si), ("stop_lat", .num la),
             ("stop_lon", .num lo), ("stop_name", .str sn),
             ("wheelchair_boarding", .int wb)])
           = some a
         ∧ StopAttributes.model_dump a
           = .obj [("location_type", .int lt), ("stop_code", .str sc),
               ("stop_id", .str si), ("stop_lat", .num la), ("stop_lon", .num lo),
               ("stop_name", .str sn), ("wheelchair_boarding", .int wb)]
         ∧ a.location_type = lt ∧ a.stop_code = sc ∧ a.stop_id = si
         ∧ a.stop_lat = la ∧ a.stop_lon = lo ∧ a.stop_name = sn
         ∧ a.wheelchair_boarding = wb)
    ∧ (∀ tr : StopTripAttributes,
       StopTripAttributes.model_validate (StopTripAttributes.model_dump tr) = some tr)
    ∧ (∀ (arrT depT routeI servD shapeI stopH stopI tripH : String)
         (dirI dropT pickT seqN : Int),
       ∃ tr : StopTripAttributes,
         StopTripAttributes.model_validate (.obj [("arrival_time", .str arrT),
             ("departure_time", .str depT), ("direction_id", .int dirI),
             ("drop_off_type", .int dropT), ("pickup_type", .int pickT),
             ("route_id", .str routeI), ("service_date", .str servD),
             ("shape_id", .str shapeI), ("stop_headsign", .str stopH),
             ("stop_id", .str stopI), ("stop_sequence", .int seqN),
             ("trip_headsign", .str tripH)])
           = some tr
         ∧ StopTripAttributes.model_dump tr
           = .obj [("arrival_time", .str arrT), ("departure_time", .str depT),
               ("direction_id", .int dirI), ("drop_off_type", .int dropT),
               ("pickup_type", .int pickT), ("route_id", .str routeI),
               ("service_date", .str servD), ("shape_id", .str shapeI),
               ("stop_headsign", .str stopH), ("stop_id", .str stopI),
               ("stop_sequence", .int seqN), ("trip_headsign", .str tripH)]
         ∧ tr.arrival_time = arrT ∧ tr.departure_time = depT
         ∧ tr.direction_id = dirI ∧ tr.drop_off_type = dropT
         ∧ tr.pickup_type = pickT ∧ tr.route_id = routeI
         ∧ tr.service_date = servD ∧ tr.shape_id = shapeI
         ∧ tr.stop_headsign = stopH ∧ tr.stop_id = stopI
         ∧ tr.stop_sequence = seqN ∧ tr.trip_headsign = tripH) :=
  ⟨fun _ => rfl,
   fun _ _ _ _ _ _ _ =>
     ⟨_, rfl, rfl, rfl, rfl, rfl, rfl, rfl, rfl, rfl⟩,
   fun _ => rfl,
   fun _ _ _ _ _ _ _ _ _ _ _ _ =>
     ⟨_, rfl, rfl, rfl, rfl, rfl, rfl, rfl, rfl, rfl, rfl, rfl, rfl, rfl, rfl⟩⟩
